import Mathlib

/-
Verification of the OpenPapers crawl/ingestion core against its design
specification.

The development shallowly embeds the core of the repository:
  * `RobustSession.get`        (src/utils.py, lines 34-95)   as `sessionGet`
  * the politeness-delay logic (src/utils.py, lines 37-53)   as `preRequest`
  * `RobustSession.download_file` (src/utils.py, lines 103-144) as `download_file`
  * `save_papers` / its crash behaviour (src/utils.py, lines 147-169)
    as `save_papers` / `save_steps`
  * `BaseScraper.scrape_year`  (src/scrapers/base.py, lines 72-154)
    as `scrape_year`
Machine-level details that the claims do not touch (HTML parsing, logging,
directory creation) are abstracted into environment parameters; control flow
and state updates follow the Python source line by line.
-/

/- ------------------------------------------------------------------ -/
/- Transport: RobustSession.get (src/utils.py lines 34-95).           -/
/- ------------------------------------------------------------------ -/

/-- Status codes retried as server errors (src/utils.py line 66). -/
def retriedServerErrors : List Nat := [500, 502, 503, 504]

/-- One execution of the `for attempt in range(retry_attempts + 1)` loop of
`RobustSession.get` (src/utils.py lines 37-95), abstracted over the status
code each issued request receives (`resp i` is the status of the `i`-th
request).  Arguments: `reqs` is the number of requests issued so far and the
final argument is the number of loop iterations still available.  Returns the
successful status (or `none`) together with the total number of requests
issued.  Branches, in source order: 200 returns the response; 429 re-enters
the loop (after the cooldown bookkeeping); 500/502/503/504 sleep and re-enter;
404 and 403 return `None` at once; any other status goes through
`response.raise_for_status()`: for a status `>= 400` this raises `HTTPError`,
a `RequestException`, which the handler at line 88 turns into `return None`
on the last attempt and a backoff-and-retry otherwise; a non-200 status below
400 raises nothing and simply falls through to the next attempt. -/
def getLoop (resp : Nat → Nat) (reqs : Nat) : Nat → Option Nat × Nat
  | 0 => (none, reqs)
  | rem + 1 =>
    let s := resp reqs
    if s = 200 then (some s, reqs + 1)
    else if s = 429 then getLoop resp (reqs + 1) rem
    else if s ∈ retriedServerErrors then getLoop resp (reqs + 1) rem
    else if s = 404 ∨ s = 403 then (none, reqs + 1)
    else if 400 ≤ s then
      if rem = 0 then (none, reqs + 1) else getLoop resp (reqs + 1) rem
    else getLoop resp (reqs + 1) rem

/-- `RobustSession.get`: the loop runs for `retry_attempts + 1` attempts
(src/utils.py line 37) starting with no request issued. -/
def sessionGet (resp : Nat → Nat) (retry_attempts : Nat) : Option Nat × Nat :=
  getLoop resp 0 (retry_attempts + 1)

/- ------------------------------------------------------------------ -/
/- Politeness delay (src/utils.py lines 37-53).                       -/
/- ------------------------------------------------------------------ -/

/-- Clock state of a `RobustSession`: the current time, `self.last_request`
and `self.rate_limited_until` (src/utils.py lines 31-32), in seconds. -/
structure TransportState where
  now : ℚ
  last_request : ℚ
  rate_limited_until : ℚ

/-- The waiting performed before one request is issued
(src/utils.py lines 39-53): first sleep out the rate-limit deadline if the
current time is before it, then, if less than `delay` has elapsed since
`last_request`, sleep the remaining delay plus the random jitter drawn from
`random.uniform(0, 0.1)`; finally `self.last_request = time.time()` records
the moment the request begins. -/
def preRequest (delay jitter : ℚ) (st : TransportState) : TransportState :=
  let t1 := if st.now < st.rate_limited_until then st.rate_limited_until else st.now
  let t2 := if t1 - st.last_request < delay then t1 + (delay - (t1 - st.last_request)) + jitter else t1
  ⟨t2, t2, st.rate_limited_until⟩

/- ------------------------------------------------------------------ -/
/- Checkpoint store: save_papers (src/utils.py lines 147-169).        -/
/- ------------------------------------------------------------------ -/

/-- One persisted record.  `parse_paper` fills `id`, `title`, `authors`,
`abstract` and `pdf_url` (for example src/scrapers/jmlr.py lines 78-84);
`scrape_year` adds `year`, `conference` and `url`
(src/scrapers/base.py lines 120-122), and `download_pdf` sets `pdf_path`
on success (src/scrapers/base.py line 64).  A missing dict key is modelled
by the empty string or `none`. -/
structure Paper where
  id : String
  title : String
  authors : List String
  abstract : String
  pdf_url : Option String
  pdf_path : Option String
  year : Nat
  conference : String
  url : String
deriving DecidableEq

/-- Contents of one on-disk file slot: missing, truncated by an interrupted
write, or a fully written (hence parseable) records file. -/
inductive FileData where
  | absent
  | halfWritten
  | full (content : List Paper)
deriving DecidableEq

/-- The two file slots `save_papers` touches: `conference_year.json` and
`conference_year.json.bak` (src/utils.py lines 155-164). -/
structure Disk where
  main : FileData
  backup : FileData
deriving DecidableEq

/-- Whether the slot holds a fully written, parseable records file. -/
def FileData.isFull : FileData → Bool
  | .full _ => true
  | _ => false

/-- Whether a file is present at the slot (`filepath.exists()`). -/
def FileData.presentOnDisk : FileData → Bool
  | .absent => false
  | _ => true

/-- Disk state after the backup step of `save_papers`
(src/utils.py lines 158-161): if the checkpoint file exists it is renamed to
the backup path, otherwise nothing happens. -/
def afterBackup (d : Disk) : Disk :=
  if d.main.presentOnDisk then ⟨.absent, d.main⟩ else d

/-- Disk state after the first `k` steps of the `save_papers` body complete
(src/utils.py lines 157-164): step 1 is the backup rename, step 2 opens the
checkpoint path for writing (leaving a truncated file until the dump
finishes), step 3 is the completed `json.dump`.  A crash at point `k` leaves
exactly this disk state. -/
def save_steps (d : Disk) (papers : List Paper) : Nat → Disk
  | 0 => d
  | 1 => afterBackup d
  | 2 => ⟨.halfWritten, (afterBackup d).backup⟩
  | _ + 3 => ⟨.full papers, (afterBackup d).backup⟩

/-- `save_papers` (src/utils.py lines 147-169).  The whole body sits in a
`try` whose handler only logs (line 168-169), so the function always returns
normally; `writeOk` says whether the `json.dump` completed or raised midway. -/
def save_papers (writeOk : Bool) (d : Disk) (papers : List Paper) : Disk :=
  if writeOk then save_steps d papers 3 else save_steps d papers 2

/-- At least one fully written records file is on disk. -/
def readableCopy (d : Disk) : Bool :=
  d.main.isFull || d.backup.isFull

/- ------------------------------------------------------------------ -/
/- Document fetcher: download_file (src/utils.py lines 103-144).      -/
/- ------------------------------------------------------------------ -/

/-- `RobustSession.download_file` (src/utils.py lines 103-144) over a
filesystem modelled as the list `fs` of paths that hold a file.  If a file
already exists at `filepath` it returns `True` without touching the network
(lines 107-109); otherwise it issues `self.get(url)` — `resp`/`retry`
parameterise that call as in `sessionGet` — and on a successful response
streams the body to `filepath` (`writeOk` says whether the streaming write
completed; a failed write is caught, the partial file removed, and `False`
returned).  Result: success flag, new filesystem, number of HTTP requests
issued. -/
def download_file (writeOk : Bool) (resp : Nat → Nat) (retry : Nat)
    (fs : List String) (filepath : String) : Bool × List String × Nat :=
  if filepath ∈ fs then (true, fs, 0)
  else
    match sessionGet resp retry with
    | (none, reqs) => (false, fs, reqs)
    | (some _, reqs) =>
      if writeOk then (true, filepath :: fs, reqs) else (false, fs, reqs)

/- ------------------------------------------------------------------ -/
/- Crawl orchestrator: BaseScraper.scrape_year                        -/
/- (src/scrapers/base.py lines 72-154).                               -/
/- ------------------------------------------------------------------ -/

/-- Outcome of one `self.parse_paper(url)` call as seen by the loop body of
`scrape_year` (src/scrapers/base.py lines 108-117 and 138-141): a parsed
record, `None`, an ordinary `Exception` (caught by the per-item handler at
line 138), or a `KeyboardInterrupt` — which derives from `BaseException`,
not `Exception`, so neither the per-item handler (line 138) nor the
run-level handler (line 152) catches it. -/
inductive ParseOutcome where
  | parsed (p : Paper)
  | failed
  | raised
  | interrupt
deriving DecidableEq

/-- The collaborators and prior state one `scrape_year` run sees.
`stored` is the result of `load_papers` (src/utils.py lines 172-188: the
parsed checkpoint, or `[]` when the file is missing or corrupt);
`paperUrls` is the result of `self.get_paper_urls(year)`;
`getUrlsFetches` is the number of Transport requests `get_paper_urls`
itself issues (one listing fetch in e.g. src/scrapers/jmlr.py line 24);
`parse` is `self.parse_paper` — each call issues at least one Transport
request (e.g. src/scrapers/jmlr.py line 51);
`fetchDoc` is the success of `download_file` for a given pdf url and
`pdfPathFor` the destination path derived from the paper id;
`saveWriteOk k` says whether the `k`-th checkpoint write of the run
completes, and `disk0` is the checkpoint file state before the run. -/
structure ScrapeEnv where
  conference : String
  stored : List Paper
  paperUrls : List String
  getUrlsFetches : Nat
  parse : String → ParseOutcome
  fetchDoc : String → Bool
  pdfPathFor : String → String
  saveWriteOk : Nat → Bool
  disk0 : Disk

/-- Mutable state of one `scrape_year` run (src/scrapers/base.py
lines 94-96), plus bookkeeping of the observable effects: `saves` records
each list passed to `save_papers`, in order; `parseCalls` the urls passed to
`self.parse_paper`; `fetchDocCalls` the pdf urls for which
`download_file` was invoked. -/
structure RunState where
  papers : List Paper
  newCount : Nat
  failedCount : Nat
  saves : List (List Paper)
  parseCalls : List String
  fetchDocCalls : List String
deriving DecidableEq

/-- Result of processing one url: continue with the next url, or a
`KeyboardInterrupt` escaping the loop. -/
inductive StepResult where
  | next (s : RunState)
  | interruptedAt (s : RunState)
deriving DecidableEq

/-- Result of a whole `scrape_year` call: a normal return of the paper list
(carried inside the final state) or a propagating `KeyboardInterrupt`. -/
inductive RunOutcome where
  | finished (s : RunState)
  | interrupted (s : RunState)
deriving DecidableEq

/-- The run state carried by either outcome. -/
def RunOutcome.state : RunOutcome → RunState
  | .finished s => s
  | .interrupted s => s

/-- Record one `self.parse_paper(url)` invocation. -/
def recordParseCall (s : RunState) (url : String) : RunState :=
  { s with parseCalls := s.parseCalls ++ [url] }

/-- `failed_count += 1` (src/scrapers/base.py lines 110, 115, 139). -/
def bumpFailed (s : RunState) : RunState :=
  { s with failedCount := s.failedCount + 1 }

/-- One `save_papers(papers, ...)` call site (src/scrapers/base.py
lines 135 and 144): the snapshot is appended to the run's save log. -/
def doSave (s : RunState) : RunState :=
  { s with saves := s.saves ++ [s.papers] }

/-- The metadata `scrape_year` stamps onto a freshly parsed record
(src/scrapers/base.py lines 120-122). -/
def stampPaper (p : Paper) (year : Nat) (conference url : String) : Paper :=
  { p with year := year, conference := conference, url := url }

/-- `self.download_pdf(paper, year)` (src/scrapers/base.py lines 47-70):
without a `pdf_url` it returns `False` with no Document-Fetcher call;
otherwise `download_file` runs and on success `pdf_path` is set
(line 64).  A download failure only logs a warning (line 128). -/
def downloadStep (env : ScrapeEnv) (p : Paper) (s : RunState) : Paper × RunState :=
  match p.pdf_url with
  | none => (p, s)
  | some u =>
    let s' := { s with fetchDocCalls := s.fetchDocCalls ++ [u] }
    if env.fetchDoc u then ({ p with pdf_path := some (env.pdfPathFor p.id) }, s')
    else (p, s')

/-- `papers.append(paper)` and `new_count += 1`
(src/scrapers/base.py lines 130-131). -/
def appendNew (p : Paper) (s : RunState) : RunState :=
  { s with papers := s.papers ++ [p], newCount := s.newCount + 1 }

/-- The periodic checkpoint of every tenth new record
(src/scrapers/base.py lines 134-136). -/
def maybeSave (s : RunState) : RunState :=
  if s.newCount % 10 = 0 then doSave s else s

/-- Continuation of the loop body once `parse_paper` returned a record
(src/scrapers/base.py lines 114-136): drop it when the title is missing,
otherwise stamp the metadata, optionally run the pdf download, append the
record, and checkpoint every tenth new record. -/
def afterParsed (env : ScrapeEnv) (year : Nat) (download_pdfs : Bool)
    (url : String) (p0 : Paper) (s : RunState) : RunState :=
  if p0.title = "" then bumpFailed s
  else
    let pr : Paper × RunState :=
      if download_pdfs then downloadStep env (stampPaper p0 year env.conference url) s
      else (stampPaper p0 year env.conference url, s)
    maybeSave (appendNew pr.1 pr.2)

/-- The body of the `for i, url in enumerate(paper_urls)` loop
(src/scrapers/base.py lines 98-141) for one url. -/
def processUrl (env : ScrapeEnv) (year : Nat) (download_pdfs resume : Bool)
    (existingUrls : List String) (url : String) (s : RunState) : StepResult :=
  if resume ∧ url ∈ existingUrls then .next s
  else
    match env.parse url with
    | .interrupt => .interruptedAt (recordParseCall s url)
    | .raised => .next (bumpFailed (recordParseCall s url))
    | .failed => .next (bumpFailed (recordParseCall s url))
    | .parsed p0 => .next (afterParsed env year download_pdfs url p0 (recordParseCall s url))

/-- The whole url loop: a `KeyboardInterrupt` in the body escapes
immediately with the state reached so far. -/
def runLoop (env : ScrapeEnv) (year : Nat) (download_pdfs resume : Bool)
    (existingUrls : List String) : List String → RunState → RunOutcome
  | [], s => .finished s
  | url :: rest, s =>
    match processUrl env year download_pdfs resume existingUrls url s with
    | .next s' => runLoop env year download_pdfs resume existingUrls rest s'
    | .interruptedAt s' => .interrupted s'

/-- Run state at the top of `scrape_year` (src/scrapers/base.py
lines 79-96): the accumulated list starts as a copy of the loaded papers. -/
def initState (stored : List Paper) : RunState :=
  ⟨stored, 0, 0, [], [], []⟩

/-- `BaseScraper.scrape_year` (src/scrapers/base.py lines 72-154).
With `resume` the prior checkpoint seeds `existing_papers`, whose urls form
the skip set (line 83).  An empty discovery list returns the existing papers
with no further work and no save (lines 87-89).  Otherwise the url loop runs
and, on normal completion only, the final `save_papers` fires (line 144);
a `KeyboardInterrupt` propagates past both `except Exception` handlers
without reaching that save. -/
def scrape_year (env : ScrapeEnv) (year : Nat) (download_pdfs resume : Bool) : RunOutcome :=
  let existing := if resume then env.stored else []
  let existingUrls := existing.map (fun p => p.url)
  if env.paperUrls = [] then .finished (initState existing)
  else
    match runLoop env year download_pdfs resume existingUrls env.paperUrls (initState existing) with
    | .finished s => .finished (doSave s)
    | .interrupted s => .interrupted s

/-- Disk state after replaying the run's checkpoint writes in order,
numbering them from `k` (each is one `save_papers` call, which never
raises). -/
def diskAfterSaves (writeOk : Nat → Bool) : Disk → Nat → List (List Paper) → Disk
  | d, _, [] => d
  | d, k, snap :: rest => diskAfterSaves writeOk (save_papers (writeOk k) d snap) (k + 1) rest

/-- Checkpoint file state after a `scrape_year` run: the saves the run
logged, replayed against the initial disk. -/
def finalDisk (env : ScrapeEnv) (r : RunOutcome) : Disk :=
  diskAfterSaves env.saveWriteOk env.disk0 0 r.state.saves

/-- Lower bound on the Transport requests a `scrape_year` run issues:
`get_paper_urls` is always called once (src/scrapers/base.py line 86) and
issues `getUrlsFetches` requests, and every `parse_paper` call issues at
least one request (e.g. src/scrapers/jmlr.py line 51).  Document-Fetcher
calls are tracked separately in `fetchDocCalls`. -/
def networkFetches (env : ScrapeEnv) (r : RunOutcome) : Nat :=
  env.getUrlsFetches + r.state.parseCalls.length

/-- The run state carried by either step result. -/
def StepResult.state : StepResult → RunState
  | .next s => s
  | .interruptedAt s => s

/-- Loop invariant of one run: the accumulated list always holds the `base`
prior records plus one record per completed new item, and every snapshot
passed to `save_papers` so far is a periodic batch save, written at some
multiple of ten new records. -/
def savesPeriodic (base : Nat) (s : RunState) : Prop :=
  s.papers.length = base + s.newCount ∧
  ∀ l ∈ s.saves, ∃ k, 0 < k ∧ l.length = base + 10 * k

/- ------------------------------------------------------------------ -/
/- Concrete environments used to evaluate the claims.                 -/
/- ------------------------------------------------------------------ -/

/-- A prior record whose document url is set but whose document was never
downloaded: the retry candidate of the spec. -/
def retryPaper : Paper :=
  ⟨"p1", "A Title", [], "", some "http://x/p1.pdf", none, 2020, "jmlr", "http://x/p1.html"⟩

/-- A partition whose checkpoint holds exactly `retryPaper` and whose
discovery step returns exactly its identifier again. -/
def envC1 : ScrapeEnv :=
  ⟨"jmlr", [retryPaper], ["http://x/p1.html"], 1, fun _ => .failed,
   fun _ => true, fun i => "papers/" ++ i, fun _ => true, ⟨.full [retryPaper], .absent⟩⟩

/-- A fresh record as `parse_paper` returns it, before `scrape_year` stamps
year, conference and url onto it. -/
def newPaperC2 : Paper := ⟨"p2", "Another Title", [], "", none, none, 0, "", ""⟩

/-- A one-item partition with an empty prior checkpoint: the first run of
the back-to-back pair. -/
def envC2a : ScrapeEnv :=
  ⟨"jmlr", [], ["http://x/p2.html"], 1,
   fun u => if u = "http://x/p2.html" then .parsed newPaperC2 else .failed,
   fun _ => false, fun i => "papers/" ++ i, fun _ => true, ⟨.absent, .absent⟩⟩

/-- The same partition immediately after the first run completed: the
checkpoint now holds exactly the records the first run returned. -/
def envC2b : ScrapeEnv :=
  { envC2a with stored := (scrape_year envC2a 2020 false true).state.papers }

/-- A one-item partition whose single `parse_paper` call receives a
`KeyboardInterrupt`. -/
def envC3 : ScrapeEnv :=
  ⟨"jmlr", [], ["http://x/p3.html"], 1, fun _ => .interrupt, fun _ => false,
   fun i => "papers/" ++ i, fun _ => true, ⟨.absent, .absent⟩⟩

/-- A fresh record for the checkpoint-write-failure scenario. -/
def paperC5 : Paper := ⟨"p5", "Fifth Title", [], "", none, none, 0, "", ""⟩

/-- A one-item partition on which every checkpoint write fails midway. -/
def envC5 : ScrapeEnv :=
  ⟨"jmlr", [], ["http://x/p5.html"], 1,
   fun u => if u = "http://x/p5.html" then .parsed paperC5 else .failed,
   fun _ => false, fun i => "papers/" ++ i, fun _ => false, ⟨.absent, .absent⟩⟩

/- ------------------------------------------------------------------ -/
/- Theorems for the claims.                                           -/
/- ------------------------------------------------------------------ -/

/-- One unfolding step of the attempt loop of `sessionGet`. -/
theorem getLoop_succ (resp : Nat → Nat) (reqs rem : Nat) :
    getLoop resp reqs (rem + 1) =
      (let s := resp reqs
       if s = 200 then (some s, reqs + 1)
       else if s = 429 then getLoop resp (reqs + 1) rem
       else if s ∈ retriedServerErrors then getLoop resp (reqs + 1) rem
       else if s = 404 ∨ s = 403 then (none, reqs + 1)
       else if 400 ≤ s then
         if rem = 0 then (none, reqs + 1) else getLoop resp (reqs + 1) rem
       else getLoop resp (reqs + 1) rem) := rfl

/-- C4: if a checkpoint file existed before a save, then no matter after how
many completed steps `k` the `save_papers` body stops — before the backup
rename, right after it, with the new file only partially written, or after
the full dump — at least one fully written, parseable records file (the
original or the backup) remains on disk; a write never leaves only a
partially-written file as the sole copy. -/
theorem save_crash_leaves_readable_copy (prior : List Paper) (bak : FileData)
    (papers : List Paper) (k : Nat) :
    readableCopy (save_steps ⟨FileData.full prior, bak⟩ papers k) = true := by
  match k with
  | 0 => simp [save_steps, readableCopy, FileData.isFull]
  | 1 => simp [save_steps, afterBackup, readableCopy, FileData.isFull, FileData.presentOnDisk]
  | 2 => simp [save_steps, afterBackup, readableCopy, FileData.isFull, FileData.presentOnDisk]
  | k + 3 => simp [save_steps, readableCopy, FileData.isFull]

/-- C6: for any non-negative jitter, the request issued after `preRequest`
begins no sooner than `delay` seconds after the previously recorded request
start `last_request`; the new `last_request` records exactly this begin time,
and time never moves backwards.  Since every request records its begin time
in `last_request`, consecutive requests of one session start at least
`delay` apart. -/
theorem politeness_delay_between_requests (delay jitter : ℚ) (st : TransportState)
    (hj : 0 ≤ jitter) :
    st.last_request + delay ≤ (preRequest delay jitter st).now ∧
    (preRequest delay jitter st).last_request = (preRequest delay jitter st).now ∧
    st.now ≤ (preRequest delay jitter st).now := by
  rcases st with ⟨n, l, rlu⟩
  refine ⟨?_, ?_, ?_⟩ <;> simp only [preRequest] <;> split_ifs <;>
    first | rfl | linarith

/-- Witness for C6 at delay 1, jitter 1/20, a session whose last request
began at time 1 observed at time 3/2. -/
theorem politeness_delay_between_requests_witness :
    (0:ℚ) ≤ 1/20 ∧ (1:ℚ) + 1 ≤ (preRequest 1 (1/20) ⟨3/2, 1, 0⟩).now :=
  ⟨by norm_num, (politeness_delay_between_requests 1 (1/20) ⟨3/2, 1, 0⟩ (by norm_num)).1⟩

/-- C7 counterexample: a constant HTTP 401 — a status that is neither 200,
429, a retried 5xx, 404 nor 403 — is not treated as a terminal failure
without retrying: with the default `retry_attempts = 3`
(src/config.py line 19) the session issues 4 requests before giving up,
because `response.raise_for_status()` raises `HTTPError`, a
`RequestException`, which the handler at src/utils.py line 88 retries with
backoff.  The claim would require exactly 1 request. -/
theorem other_status_is_retried :
    sessionGet (fun _ => 401) 3 = (none, 4) ∧ (4 : Nat) ≠ 1 := by
  decide

/-- C7 amended: a response status that is not 200, not 429, not one of the
retried server errors, and not 404 or 403 is retried (via the
`RequestException` handler when the status is at least 400, or by silently
falling through to the next attempt otherwise) until all
`retry_attempts + 1` attempts are exhausted, and only then does the fetch
return a terminal failure. -/
theorem other_status_retries_then_fails (c r : Nat) (h200 : c ≠ 200) (h429 : c ≠ 429)
    (hsrv : c ∉ retriedServerErrors) (h404 : c ≠ 404) (h403 : c ≠ 403) :
    sessionGet (fun _ => c) r = (none, r + 1) := by
  have key : ∀ rem reqs, getLoop (fun _ => c) reqs (rem + 1) = (none, reqs + rem + 1) := by
    intro rem
    induction rem with
    | zero =>
      intro reqs
      by_cases h4 : 400 ≤ c <;>
        simp [getLoop, h200, h429, hsrv, h404, h403, h4]
    | succ n ih =>
      intro reqs
      have step : getLoop (fun _ => c) reqs (n + 1 + 1) =
          getLoop (fun _ => c) (reqs + 1) (n + 1) := by
        rw [getLoop_succ]
        by_cases h4 : 400 ≤ c <;>
          simp [h200, h429, hsrv, h404, h403, h4]
      rw [step, ih]
      have harith : reqs + 1 + n + 1 = reqs + (n + 1) + 1 := by omega
      rw [harith]
  have h := key r 0
  simpa [sessionGet] using h

/-- Witness for the amended C7 at status 401 and the default 3 retry
attempts. -/
theorem other_status_retries_then_fails_witness :
    (401 : Nat) ≠ 200 ∧ sessionGet (fun _ => 401) 3 = (none, 3 + 1) :=
  ⟨by decide, other_status_retries_then_fails 401 3 (by decide) (by decide) (by decide)
    (by decide) (by decide)⟩

/-- C8: when the first request of a fetch receives HTTP 404 (or 403), the
fetch returns the terminal failure `None` on that first attempt, having
issued exactly one request and zero retries, for every retry budget. -/
theorem status404_terminal_first_attempt (resp : Nat → Nat) (r : Nat)
    (h : resp 0 = 404 ∨ resp 0 = 403) :
    sessionGet resp r = (none, 1) := by
  rcases h with h | h <;> simp [sessionGet, getLoop, h, retriedServerErrors]

/-- Witness for C8: a 404 on the first request with the default retry
budget. -/
theorem status404_terminal_first_attempt_witness :
    sessionGet (fun _ => 404) 3 = (none, 1) :=
  status404_terminal_first_attempt (fun _ => 404) 3 (Or.inl rfl)

/-- C9: if a file is already present at the destination path,
`download_file` returns `True` with zero network requests; consequently,
calling it twice for the same absent destination — the first call succeeding
with a single 200 response — issues exactly one request the first time and
zero the second time.  The last conjunct states the skip for an arbitrary
filesystem that already holds the file. -/
theorem download_file_skips_existing (resp : Nat → Nat) (r : Nat) (fs : List String)
    (filepath : String) (habs : filepath ∉ fs) (h200 : resp 0 = 200) :
    download_file true resp r fs filepath = (true, filepath :: fs, 1) ∧
    download_file true resp r (filepath :: fs) filepath = (true, filepath :: fs, 0) ∧
    ∀ fs2 : List String, filepath ∈ fs2 →
      download_file true resp r fs2 filepath = (true, fs2, 0) := by
  have hget : sessionGet resp r = (some 200, 1) := by
    simp [sessionGet, getLoop, h200]
  refine ⟨?_, ?_, ?_⟩
  · simp [download_file, habs, hget]
  · simp [download_file]
  · intro fs2 hmem
    simp [download_file, hmem]

/-- Witness for C9: downloading to a fresh path `a.pdf` against an
immediate 200. -/
theorem download_file_skips_existing_witness :
    "a.pdf" ∉ ([] : List String) ∧
    download_file true (fun _ => 200) 3 [] "a.pdf" = (true, ["a.pdf"], 1) ∧
    download_file true (fun _ => 200) 3 ["a.pdf"] "a.pdf" = (true, ["a.pdf"], 0) := by
  have h := download_file_skips_existing (fun _ => 200) 3 [] "a.pdf" (by decide) rfl
  exact ⟨by decide, h.1, h.2.1⟩

/-- When every discovered url already belongs to the skip set, a resume run
walks the whole list without doing anything. -/
theorem runLoop_all_skipped (env : ScrapeEnv) (year : Nat) (dl : Bool)
    (eu : List String) :
    ∀ urls : List String, (∀ u ∈ urls, u ∈ eu) →
      ∀ s, runLoop env year dl true eu urls s = .finished s := by
  intro urls
  induction urls with
  | nil => intro _ s; rfl
  | cons u rest ih =>
    intro h s
    have hu : u ∈ eu := h u (by simp)
    have hrest : ∀ v ∈ rest, v ∈ eu := fun v hv => h v (by simp [hv])
    simp [runLoop, processUrl, hu, ih hrest]

/-- C1 counterexample: `envC1` resumes from a checkpoint holding exactly the
retry candidate `retryPaper` (document url set, document not downloaded) and
rediscovers its identifier, yet the run invokes the Document Fetcher zero
times — refuting the claimed Document-Fetcher attempt — while indeed also
never re-invoking `parse_item`.  The skip at src/scrapers/base.py line 103
fires before any per-record work. -/
theorem retry_candidate_fetcher_not_invoked :
    retryPaper.pdf_url.isSome = true ∧ retryPaper.pdf_path = none ∧
    (scrape_year envC1 2020 true true).state.fetchDocCalls = [] ∧
    (scrape_year envC1 2020 true true).state.parseCalls = [] := by
  decide

/-- C1 amended: a record whose identifier is already in the checkpoint is
skipped entirely by a resume run — neither `parse_item` nor the Document
Fetcher is invoked for it — and it is carried over unchanged, even when its
document url is set and its document was never downloaded. -/
theorem retry_candidate_skipped_entirely (env : ScrapeEnv) (year : Nat) (dl : Bool)
    (p : Paper) (hmem : p ∈ env.stored) (hurls : env.paperUrls = [p.url]) :
    ∃ s, scrape_year env year dl true = .finished s ∧
      s.parseCalls = [] ∧ s.fetchDocCalls = [] ∧ s.papers = env.stored := by
  have hall : ∀ u ∈ env.paperUrls, u ∈ env.stored.map (fun q => q.url) := by
    intro u hu
    rw [hurls] at hu
    simp only [List.mem_singleton] at hu
    subst hu
    exact List.mem_map_of_mem _ hmem
  have hne : env.paperUrls ≠ [] := by rw [hurls]; exact List.cons_ne_nil _ _
  have hloop := runLoop_all_skipped env year dl (env.stored.map fun q => q.url)
    env.paperUrls hall (initState env.stored)
  refine ⟨doSave (initState env.stored), ?_, rfl, rfl, rfl⟩
  simp [scrape_year, hne, hloop]

/-- Witness for the amended C1 at the concrete environment `envC1`. -/
theorem retry_candidate_skipped_entirely_witness :
    retryPaper ∈ envC1.stored ∧
    ∃ s, scrape_year envC1 2020 true true = .finished s ∧
      s.parseCalls = [] ∧ s.fetchDocCalls = [] ∧ s.papers = envC1.stored :=
  ⟨by decide, retry_candidate_skipped_entirely envC1 2020 true retryPaper (by decide) rfl⟩

/-- C2 counterexample: after `envC2a`'s run completed, the immediate re-run
`envC2b` with resume enabled does return the identical record list, but it
still re-invokes `get_paper_urls` (src/scrapers/base.py line 86), whose one
listing request makes the re-run perform 1 network fetch, not the claimed
zero. -/
theorem second_run_still_fetches_discovery :
    (scrape_year envC2b 2020 false true).state.papers = envC2b.stored ∧
    networkFetches envC2b (scrape_year envC2b 2020 false true) = 1 ∧
    (1 : Nat) ≠ 0 := by
  decide

/-- C2 amended: re-running a partition whose discovered identifiers are all
already in the checkpoint completes normally, performs zero `parse_item`
calls and zero Document-Fetcher calls for them, and returns exactly the
previously persisted record list; only the identifier-discovery step
(`get_paper_urls`) is re-executed and performs its own network fetches. -/
theorem resume_rerun_no_item_fetches (env : ScrapeEnv) (year : Nat) (dl : Bool)
    (hall : ∀ u ∈ env.paperUrls, u ∈ env.stored.map (fun p => p.url)) :
    ∃ s, scrape_year env year dl true = .finished s ∧
      s.papers = env.stored ∧ s.parseCalls = [] ∧ s.fetchDocCalls = [] := by
  by_cases hp : env.paperUrls = []
  · exact ⟨initState env.stored, by simp [scrape_year, hp], rfl, rfl, rfl⟩
  · have hloop := runLoop_all_skipped env year dl (env.stored.map fun p => p.url)
      env.paperUrls hall (initState env.stored)
    exact ⟨doSave (initState env.stored), by simp [scrape_year, hp, hloop], rfl, rfl, rfl⟩

/-- Witness for the amended C2 at the concrete second run `envC2b`. -/
theorem resume_rerun_no_item_fetches_witness :
    (∀ u ∈ envC2b.paperUrls, u ∈ envC2b.stored.map (fun p => p.url)) ∧
    ∃ s, scrape_year envC2b 2020 false true = .finished s ∧
      s.papers = envC2b.stored ∧ s.parseCalls = [] ∧ s.fetchDocCalls = [] := by
  have h : ∀ u ∈ envC2b.paperUrls, u ∈ envC2b.stored.map (fun p => p.url) := by decide
  exact ⟨h, resume_rerun_no_item_fetches envC2b 2020 false h⟩

/-- `download_pdf` only touches the paper and the Document-Fetcher log; the
accumulated list, the new-item counter and the save log are unchanged. -/
theorem downloadStep_state (env : ScrapeEnv) (p : Paper) (s : RunState) :
    ((downloadStep env p s).2).papers = s.papers ∧
    ((downloadStep env p s).2).newCount = s.newCount ∧
    ((downloadStep env p s).2).saves = s.saves := by
  unfold downloadStep
  cases p.pdf_url with
  | none => exact ⟨rfl, rfl, rfl⟩
  | some u =>
    dsimp only
    split <;> exact ⟨rfl, rfl, rfl⟩

/-- `appendNew` appends exactly one record. -/
theorem appendNew_papers (p : Paper) (s : RunState) :
    (appendNew p s).papers = s.papers ++ [p] := rfl

/-- The periodic checkpoint does not change the accumulated list. -/
theorem maybeSave_papers (s : RunState) : (maybeSave s).papers = s.papers := by
  unfold maybeSave
  split <;> rfl

/-- The pdf-download step preserves the run invariant. -/
theorem downloadStep_savesPeriodic (env : ScrapeEnv) (p : Paper) (s : RunState)
    (base : Nat) (h : savesPeriodic base s) :
    savesPeriodic base ((downloadStep env p s).2) := by
  obtain ⟨hp, hn, hs⟩ := downloadStep_state env p s
  obtain ⟨h1, h2⟩ := h
  refine ⟨?_, ?_⟩
  · rw [hp, hn, h1]
  · rw [hs]
    exact h2

/-- Appending one new record and running the periodic checkpoint preserves
the run invariant: a snapshot is written only when the incremented counter
is a positive multiple of ten. -/
theorem appendSave_savesPeriodic (p : Paper) (s : RunState) (base : Nat)
    (h : savesPeriodic base s) :
    savesPeriodic base (maybeSave (appendNew p s)) := by
  obtain ⟨h1, h2⟩ := h
  have hlen : (appendNew p s).papers.length = base + (appendNew p s).newCount := by
    show (s.papers ++ [p]).length = base + (s.newCount + 1)
    rw [List.length_append, h1, List.length_singleton]
    omega
  unfold maybeSave
  split
  · rename_i h10
    have h10' : (s.newCount + 1) % 10 = 0 := h10
    refine ⟨hlen, ?_⟩
    intro l hl
    have hl' : l ∈ (appendNew p s).saves ++ [(appendNew p s).papers] := hl
    rw [List.mem_append] at hl'
    rcases hl' with hl' | hl'
    · exact h2 l hl'
    · rw [List.mem_singleton] at hl'
      subst hl'
      rw [hlen]
      show ∃ k, 0 < k ∧ base + (s.newCount + 1) = base + 10 * k
      refine ⟨(s.newCount + 1) / 10, ?_, ?_⟩ <;> omega
  · exact ⟨hlen, fun l hl => h2 l hl⟩

/-- The post-parse continuation preserves the run invariant. -/
theorem afterParsed_savesPeriodic (env : ScrapeEnv) (year : Nat) (dl : Bool)
    (url : String) (p0 : Paper) (s : RunState) (base : Nat)
    (h : savesPeriodic base s) :
    savesPeriodic base (afterParsed env year dl url p0 s) := by
  dsimp only [afterParsed]
  split
  · exact h
  · by_cases hdl : dl = true
    · simp only [if_pos hdl]
      exact appendSave_savesPeriodic _ _ base
        (downloadStep_savesPeriodic env _ s base h)
    · simp only [if_neg hdl]
      exact appendSave_savesPeriodic _ _ base h

/-- Processing one url preserves the run invariant, whether the step
continues or is interrupted. -/
theorem processUrl_savesPeriodic (env : ScrapeEnv) (year : Nat) (dl resume : Bool)
    (eu : List String) (url : String) (s : RunState) (base : Nat)
    (h : savesPeriodic base s) :
    savesPeriodic base ((processUrl env year dl resume eu url s).state) := by
  unfold processUrl
  split
  · exact h
  · cases env.parse url with
    | interrupt => exact h
    | raised => exact h
    | failed => exact h
    | parsed p0 =>
      exact afterParsed_savesPeriodic env year dl url p0 (recordParseCall s url) base h

/-- The whole url loop preserves the run invariant. -/
theorem runLoop_savesPeriodic (env : ScrapeEnv) (year : Nat) (dl resume : Bool)
    (eu : List String) (base : Nat) :
    ∀ (urls : List String) (s : RunState), savesPeriodic base s →
      savesPeriodic base ((runLoop env year dl resume eu urls s).state) := by
  intro urls
  induction urls with
  | nil => intro s h; exact h
  | cons u rest ih =>
    intro s h
    have h' := processUrl_savesPeriodic env year dl resume eu u s base h
    cases hp : processUrl env year dl resume eu u s with
    | next s' =>
      rw [hp] at h'
      simpa [runLoop, hp] using ih s' h'
    | interruptedAt s' =>
      rw [hp] at h'
      simpa [runLoop, hp] using h'

/-- C3 counterexample: in `envC3` the single `parse_paper` call receives a
`KeyboardInterrupt`.  The interrupt does propagate as a distinguishable
outcome (it is caught by neither `except Exception` handler), but the run
performs zero checkpoint writes on the way out: the final
`save_papers(papers, ...)` at src/scrapers/base.py line 144 is unreachable
on the interrupt path, refuting the claimed final unconditional checkpoint
write. -/
theorem interrupt_without_final_save :
    scrape_year envC3 2020 true true =
      .interrupted ((scrape_year envC3 2020 true true).state) ∧
    (scrape_year envC3 2020 true true).state.saves = [] ∧
    (scrape_year envC3 2020 true true).state.parseCalls = ["http://x/p3.html"] :=
  ⟨rfl, by decide, by decide⟩

/-- C3 amended: an explicit interrupt is propagated to the caller as a
distinguishable interrupted outcome rather than swallowed, but no final
checkpoint write happens on interruption: every snapshot written during an
interrupted run is one of the periodic batch saves, holding the prior
records plus a positive multiple of ten new ones. -/
theorem interrupt_saves_only_periodic (env : ScrapeEnv) (year : Nat)
    (download_pdfs resume : Bool) (s : RunState)
    (h : scrape_year env year download_pdfs resume = .interrupted s) :
    ∀ l ∈ s.saves, ∃ k, 0 < k ∧
      l.length = (if resume then env.stored else []).length + 10 * k := by
  by_cases hp : env.paperUrls = []
  · simp [scrape_year, hp] at h
  · rcases hr : runLoop env year download_pdfs resume
        ((if resume then env.stored else []).map fun p => p.url) env.paperUrls
        (initState (if resume then env.stored else [])) with s' | s'
    · simp [scrape_year, hp, hr] at h
    · have hs : s' = s := by
        simp [scrape_year, hp, hr] at h
        exact h
      subst hs
      have hinv := runLoop_savesPeriodic env year download_pdfs resume
        ((if resume then env.stored else []).map fun p => p.url)
        ((if resume then env.stored else []).length) env.paperUrls
        (initState (if resume then env.stored else [])) ⟨rfl, by simp [initState]⟩
      rw [hr] at hinv
      exact hinv.2

/-- Witness for the amended C3 at the concrete environment `envC3`. -/
theorem interrupt_saves_only_periodic_witness :
    scrape_year envC3 2020 true true =
      .interrupted ((scrape_year envC3 2020 true true).state) ∧
    ∀ l ∈ ((scrape_year envC3 2020 true true).state).saves, ∃ k, 0 < k ∧
      l.length = (if true then envC3.stored else []).length + 10 * k :=
  ⟨rfl, interrupt_saves_only_periodic envC3 2020 true true _ rfl⟩

/-- C5 counterexample: in `envC5` the single checkpoint write of the run
fails midway (the `json.dump` raises), leaving only a truncated checkpoint
file; yet `scrape_year` returns its normal, successful outcome — the
failure is only logged inside `save_papers` (src/utils.py lines 168-169),
refuting the claim that a checkpoint-write failure is surfaced to the
caller as the run's terminal error. -/
theorem save_failure_run_still_finishes :
    scrape_year envC5 2020 false true =
      .finished ((scrape_year envC5 2020 false true).state) ∧
    (scrape_year envC5 2020 false true).state.saves ≠ [] ∧
    (finalDisk envC5 (scrape_year envC5 2020 false true)).main = FileData.halfWritten ∧
    ((finalDisk envC5 (scrape_year envC5 2020 false true)).main).isFull = false :=
  ⟨rfl, by decide, by decide, by decide⟩

/-- In the url loop nothing depends on whether checkpoint writes succeed. -/
theorem runLoop_saveOk_irrelevant (env : ScrapeEnv) (f : Nat → Bool) (year : Nat)
    (dl resume : Bool) (eu : List String) :
    ∀ (urls : List String) (s : RunState),
      runLoop { env with saveWriteOk := f } year dl resume eu urls s =
        runLoop env year dl resume eu urls s := by
  intro urls
  induction urls with
  | nil => intro s; rfl
  | cons u rest ih =>
    intro s
    have hpu : processUrl { env with saveWriteOk := f } year dl resume eu u s =
        processUrl env year dl resume eu u s := rfl
    simp only [runLoop, hpu]
    cases processUrl env year dl resume eu u s with
    | next s' => exact ih s'
    | interruptedAt s' => rfl

/-- C5 amended: `save_papers` catches every exception internally and only
logs it, so a checkpoint-write failure is never surfaced: the outcome of
`scrape_year` — returned record list, counters, call log and save log —
is identical no matter which checkpoint writes succeed or fail; only the
on-disk checkpoint state differs. -/
theorem save_outcome_invisible_to_run (env : ScrapeEnv) (f g : Nat → Bool)
    (year : Nat) (download_pdfs resume : Bool) :
    scrape_year { env with saveWriteOk := f } year download_pdfs resume =
    scrape_year { env with saveWriteOk := g } year download_pdfs resume := by
  unfold scrape_year
  dsimp only
  rw [runLoop_saveOk_irrelevant env f, runLoop_saveOk_irrelevant env g]

/-- `parse_paper` failures and the periodic checkpoint only ever append to
the accumulated list: the state after the post-parse continuation starts
with the records it started with. -/
theorem afterParsed_papers_extend (env : ScrapeEnv) (year : Nat) (dl : Bool)
    (url : String) (p0 : Paper) (s : RunState) :
    ∃ t, (afterParsed env year dl url p0 s).papers = s.papers ++ t := by
  dsimp only [afterParsed]
  split
  · exact ⟨[], by simp [bumpFailed]⟩
  · by_cases hdl : dl = true
    · refine ⟨[(downloadStep env (stampPaper p0 year env.conference url) s).1], ?_⟩
      simp only [if_pos hdl, maybeSave_papers, appendNew_papers,
        (downloadStep_state env (stampPaper p0 year env.conference url) s).1]
    · exact ⟨[stampPaper p0 year env.conference url],
        by simp only [if_neg hdl, maybeSave_papers, appendNew_papers]⟩

/-- Processing one url only ever appends records. -/
theorem processUrl_papers_extend (env : ScrapeEnv) (year : Nat) (dl resume : Bool)
    (eu : List String) (url : String) (s : RunState) :
    ∃ t, ((processUrl env year dl resume eu url s).state).papers = s.papers ++ t := by
  unfold processUrl
  split
  · exact ⟨[], by simp [StepResult.state]⟩
  · cases env.parse url with
    | interrupt => exact ⟨[], by simp [StepResult.state, recordParseCall]⟩
    | raised => exact ⟨[], by simp [StepResult.state, bumpFailed, recordParseCall]⟩
    | failed => exact ⟨[], by simp [StepResult.state, bumpFailed, recordParseCall]⟩
    | parsed p0 =>
      have h := afterParsed_papers_extend env year dl url p0 (recordParseCall s url)
      simpa [StepResult.state, recordParseCall] using h

/-- The url loop only ever appends records, whether it finishes or is
interrupted. -/
theorem runLoop_papers_extend (env : ScrapeEnv) (year : Nat) (dl resume : Bool)
    (eu : List String) :
    ∀ (urls : List String) (s : RunState),
      ∃ t, ((runLoop env year dl resume eu urls s).state).papers = s.papers ++ t := by
  intro urls
  induction urls with
  | nil => intro s; exact ⟨[], by simp [runLoop, RunOutcome.state]⟩
  | cons u rest ih =>
    intro s
    obtain ⟨t1, ht1⟩ := processUrl_papers_extend env year dl resume eu u s
    cases hp : processUrl env year dl resume eu u s with
    | next s' =>
      rw [hp] at ht1
      obtain ⟨t2, ht2⟩ := ih s'
      refine ⟨t1 ++ t2, ?_⟩
      have hs' : s'.papers = s.papers ++ t1 := ht1
      simp [runLoop, hp, ht2, hs', List.append_assoc]
    | interruptedAt s' =>
      rw [hp] at ht1
      refine ⟨t1, ?_⟩
      have hs' : s'.papers = s.papers ++ t1 := ht1
      simp [runLoop, hp, RunOutcome.state, hs']

/-- C10: with resume enabled, the record list held by a run — and hence the
list a completed run returns — always begins with exactly the previously
persisted records, unchanged and in order; the run only appends newly
processed records after them. -/
theorem resume_run_extends_prior_records (env : ScrapeEnv) (year : Nat) (dl : Bool) :
    ∃ rest, ((scrape_year env year dl true).state).papers = env.stored ++ rest := by
  by_cases hp : env.paperUrls = []
  · exact ⟨[], by simp [scrape_year, hp, initState, RunOutcome.state]⟩
  · obtain ⟨t, ht⟩ := runLoop_papers_extend env year dl true
      (env.stored.map fun p => p.url) env.paperUrls (initState env.stored)
    refine ⟨t, ?_⟩
    rcases hr : runLoop env year dl true (env.stored.map fun p => p.url) env.paperUrls
        (initState env.stored) with s' | s'
    · have hres : scrape_year env year dl true = .finished (doSave s') := by
        simp [scrape_year, hp, hr]
      rw [hr] at ht
      have hs' : s'.papers = env.stored ++ t := ht
      rw [hres]
      simpa [RunOutcome.state, doSave] using hs'
    · have hres : scrape_year env year dl true = .interrupted s' := by
        simp [scrape_year, hp, hr]
      rw [hr] at ht
      have hs' : s'.papers = env.stored ++ t := ht
      rw [hres]
      simpa [RunOutcome.state] using hs'
